import Mathlib

/-!
Shallow embedding of the `@crvouga/result` library (src/result.ts).

JavaScript runtime values are modelled by the inductive type `JSVal`:
numbers (as integers plus a separate NaN value), strings, booleans,
`null`, `undefined`, and plain objects as association lists of fields.
Object identity is approximated structurally; `===` on two distinct
object references is not representable, which no statement below relies
on.  Functions that can throw are modelled in `Except String`, the
error message being the thrown message from the source.
-/

inductive JSVal : Type where
  | vnull : JSVal
  | vundefined : JSVal
  | vnan : JSVal
  | vnum : Int → JSVal
  | vstr : String → JSVal
  | vbool : Bool → JSVal
  | vobj : List (String × JSVal) → JSVal

namespace ResultLib

/-- Field lookup in an object's association list (JS property access). -/
def getField : String → List (String × JSVal) → Option JSVal
  | _, [] => none
  | k, (k2, v) :: rest => if k2 == k then some v else getField k rest

mutual

/-- Structural equality on `JSVal` (used by `jsEq` below). -/
def structEq : JSVal → JSVal → Bool
  | .vnull, .vnull => true
  | .vundefined, .vundefined => true
  | .vnan, .vnan => true
  | .vnum a, .vnum b => a == b
  | .vstr a, .vstr b => a == b
  | .vbool a, .vbool b => a == b
  | .vobj fs, .vobj gs => structEqFields fs gs
  | _, _ => false

/-- Structural equality on field lists. -/
def structEqFields : List (String × JSVal) → List (String × JSVal) → Bool
  | [], [] => true
  | (k1, v1) :: r1, (k2, v2) :: r2 => k1 == k2 && structEq v1 v2 && structEqFields r1 r2
  | _, _ => false

end

/-- JavaScript strict equality `===`: like structural equality except that
`NaN === NaN` is false.  (On object references it is approximated
structurally, see the header comment.) -/
def jsEq (a b : JSVal) : Bool :=
  match a, b with
  | .vnan, _ => false
  | _, .vnan => false
  | x, y => structEq x y

/-- JS property access `v.k`, yielding `undefined` for a missing field
or a non-object receiver. -/
def fieldOf (value : JSVal) (k : String) : JSVal :=
  match value with
  | .vobj fields => (getField k fields).getD .vundefined
  | _ => .vundefined

/-- The `type` discriminant field of a value, when it is an object that has one. -/
def tagOf (value : JSVal) : Option JSVal :=
  match value with
  | .vobj fields => getField "type" fields
  | _ => none

/-- Constructor `Ok(value)` from the source: `({ type: 'ok', value })`. -/
def Ok (value : JSVal) : JSVal :=
  .vobj [("type", .vstr "ok"), ("value", value)]

/-- Constructor `Err(error)` from the source: `({ type: 'err', error })`. -/
def Err (error : JSVal) : JSVal :=
  .vobj [("type", .vstr "err"), ("error", error)]

/-- Constructor `Loading()` from the source: `({ type: 'loading' })`. -/
def Loading : JSVal :=
  .vobj [("type", .vstr "loading")]

/-- Constructor `NotAsked()` from the source: `({ type: 'not-asked' })`. -/
def NotAsked : JSVal :=
  .vobj [("type", .vstr "not-asked")]

/-- Guard `isOk(value, validator?)`: object, `'type' in value`,
`value.type === 'ok'`, `'value' in value`, and the optional validator
accepts `value.value`. -/
def isOk (value : JSVal) (validator : Option (JSVal → Bool)) : Bool :=
  match value with
  | .vobj fields =>
      (match getField "type" fields with
       | some t => jsEq t (.vstr "ok")
       | none => false) &&
      (getField "value" fields).isSome &&
      (match validator, getField "value" fields with
       | some p, some pv => p pv
       | _, _ => true)
  | _ => false

/-- Guard `isErr(value, validator?)`: object, `'type' in value`,
`value.type === 'err'`, `'error' in value`, and the optional validator
accepts `value.error`. -/
def isErr (value : JSVal) (validator : Option (JSVal → Bool)) : Bool :=
  match value with
  | .vobj fields =>
      (match getField "type" fields with
       | some t => jsEq t (.vstr "err")
       | none => false) &&
      (getField "error" fields).isSome &&
      (match validator, getField "error" fields with
       | some p, some pv => p pv
       | _, _ => true)
  | _ => false

/-- Guard `isLoading(value)`: object, `'type' in value`, `value.type === 'loading'`. -/
def isLoading (value : JSVal) : Bool :=
  match value with
  | .vobj fields =>
      match getField "type" fields with
      | some t => jsEq t (.vstr "loading")
      | none => false
  | _ => false

/-- Guard `isNotAsked(value)`: object, `'type' in value`, `value.type === 'not-asked'`. -/
def isNotAsked (value : JSVal) : Bool :=
  match value with
  | .vobj fields =>
      match getField "type" fields with
      | some t => jsEq t (.vstr "not-asked")
      | none => false
  | _ => false

/-- Combined guard `isResult(value, valueValidator?, errorValidator?)` from the source. -/
def isResult (value : JSVal) (valueValidator errorValidator : Option (JSVal → Bool)) : Bool :=
  if !isOk value none && !isErr value none then
    false
  else if isOk value none && valueValidator.isSome then
    (valueValidator.getD (fun _ => true)) (fieldOf value "value")
  else if isErr value none && errorValidator.isSome then
    (errorValidator.getD (fun _ => true)) (fieldOf value "error")
  else
    true

/-- Combined guard `isRemoteResult(value, valueValidator?, errorValidator?)` from the source. -/
def isRemoteResult (value : JSVal) (valueValidator errorValidator : Option (JSVal → Bool)) :
    Bool :=
  if isLoading value || isNotAsked value then
    true
  else
    isResult value valueValidator errorValidator

/-- `mapOk(result, mapper)` from the source. -/
def mapOk (result : JSVal) (mapper : JSVal → JSVal) : JSVal :=
  if isOk result none then
    Ok (mapper (fieldOf result "value"))
  else
    result

/-- `flatMapOk(result, mapper)` from the source. -/
def flatMapOk (result : JSVal) (mapper : JSVal → JSVal) : JSVal :=
  if isOk result none then
    mapper (fieldOf result "value")
  else
    result

/-- `mapErr(result, mapper)` from the source. -/
def mapErr (result : JSVal) (mapper : JSVal → JSVal) : JSVal :=
  if isErr result none then
    Err (mapper (fieldOf result "error"))
  else
    result

/-- `flatMapErr(result, mapper)` from the source. -/
def flatMapErr (result : JSVal) (mapper : JSVal → JSVal) : JSVal :=
  if isErr result none then
    mapper (fieldOf result "error")
  else
    result

/-- `unwrap(result)` from the source; throwing is modelled as `Except.error`
carrying the thrown message. -/
def unwrap (result : JSVal) : Except String JSVal :=
  if isOk result none then
    .ok (fieldOf result "value")
  else
    .error "Tried to unwrap a non-ok result"

/-- `unwrapOr(result, defaultValue)` from the source. -/
def unwrapOr (result : JSVal) (defaultValue : JSVal) : JSVal :=
  if isOk result none then
    fieldOf result "value"
  else
    defaultValue

/-- `getOrElse(result, defaultValue)` from the source: delegates to `unwrapOr`. -/
def getOrElse (result : JSVal) (defaultValue : JSVal) : JSVal :=
  unwrapOr result defaultValue

/-- `fold(result, onOk, onErr)` from the source; the final
`throw new Error('Invalid result type')` is `Except.error`. -/
def fold (result : JSVal) (onOk onErr : JSVal → JSVal) : Except String JSVal :=
  if isOk result none then
    .ok (onOk (fieldOf result "value"))
  else if isErr result none then
    .ok (onErr (fieldOf result "error"))
  else
    .error "Invalid result type"

/-- `bimap(result, okMapper, errMapper)` from the source. -/
def bimap (result : JSVal) (okMapper errMapper : JSVal → JSVal) : Except String JSVal :=
  if isOk result none then
    .ok (Ok (okMapper (fieldOf result "value")))
  else if isErr result none then
    .ok (Err (errMapper (fieldOf result "error")))
  else
    .error "Invalid result type"

/-- A settled JavaScript promise: resolved with a value or rejected with a reason. -/
inductive JSPromise : Type where
  | resolved : JSVal → JSPromise
  | rejected : JSVal → JSPromise

/-- `toPromise(result)` from the source: `Ok` resolves, `Err` rejects, anything
else throws synchronously (`Except.error`, not a rejected promise). -/
def toPromise (result : JSVal) : Except String JSPromise :=
  if isOk result none then
    .ok (.resolved (fieldOf result "value"))
  else if isErr result none then
    .ok (.rejected (fieldOf result "error"))
  else
    .error "Cannot convert Loading or NotAsked to Promise"

/-- `equals(a, b, valueEquals?)` from the source. -/
def equals (a b : JSVal) (valueEquals : Option (JSVal → JSVal → Bool)) : Bool :=
  if !isRemoteResult a none none || !isRemoteResult b none none then
    false
  else if !jsEq (fieldOf a "type") (fieldOf b "type") then
    false
  else if isOk a none && isOk b none then
    match valueEquals with
    | some f => f (fieldOf a "value") (fieldOf b "value")
    | none => jsEq (fieldOf a "value") (fieldOf b "value")
  else if isErr a none && isErr b none then
    match valueEquals with
    | some f => f (fieldOf a "error") (fieldOf b "error")
    | none => jsEq (fieldOf a "error") (fieldOf b "error")
  else
    true

/-- JS loose `value == null`, true exactly for `null` and `undefined`. -/
def isNullish : JSVal → Bool
  | .vnull => true
  | .vundefined => true
  | _ => false

/-- `fromNullable(value, error)` from the source: `value != null ? Ok(value) : Err(error)`. -/
def fromNullable (value : JSVal) (error : JSVal) : JSVal :=
  if !isNullish value then Ok value else Err error

/-- `fromNullish(value, error)` from the source: `value == null ? Err(error) : Ok(value)`. -/
def fromNullish (value : JSVal) (error : JSVal) : JSVal :=
  if isNullish value then Err error else Ok value

/-- JavaScript truthiness of a value. -/
def truthy : JSVal → Bool
  | .vnull => false
  | .vundefined => false
  | .vnan => false
  | .vnum n => n != 0
  | .vstr s => s != ""
  | .vbool b => b
  | .vobj _ => true

/-- `fromFalsy(value, error)` from the source: `value ? Ok(value) : Err(error)`. -/
def fromFalsy (value : JSVal) (error : JSVal) : JSVal :=
  if truthy value then Ok value else Err error

/-- Values of the two-variant `Result` data model, i.e. built by the
`Ok`/`Err` constructors. -/
def IsResultValue (r : JSVal) : Prop :=
  (∃ v, r = Ok v) ∨ (∃ e, r = Err e)

/-- Values of the four-variant `RemoteResult` data model. -/
def IsRemoteValue (r : JSVal) : Prop :=
  IsResultValue r ∨ r = Loading ∨ r = NotAsked

end ResultLib

namespace ResultLib

theorem jsEq_vstr_iff (t : JSVal) (s : String) : jsEq t (.vstr s) = true ↔ t = .vstr s := by
  cases t <;> simp [jsEq, structEq]

theorem isOk_some (v : JSVal) (p : JSVal → Bool) :
    isOk v (some p) = (isOk v none && p (fieldOf v "value")) := by
  cases v <;> simp [isOk, fieldOf]
  case vobj fields =>
    cases h1 : getField "type" fields <;> cases h2 : getField "value" fields <;>
      simp [h1, h2]

theorem isErr_some (v : JSVal) (p : JSVal → Bool) :
    isErr v (some p) = (isErr v none && p (fieldOf v "error")) := by
  cases v <;> simp [isErr, fieldOf]
  case vobj fields =>
    cases h1 : getField "type" fields <;> cases h2 : getField "error" fields <;>
      simp [h1, h2]

theorem isOk_any (v : JSVal) (vv : Option (JSVal → Bool)) :
    isOk v vv = (isOk v none && (match vv with | some p => p (fieldOf v "value") | none => true)) := by
  cases vv
  case none => simp
  case some p => simp [isOk_some]

theorem isErr_any (v : JSVal) (ev : Option (JSVal → Bool)) :
    isErr v ev = (isErr v none && (match ev with | some p => p (fieldOf v "error") | none => true)) := by
  cases ev
  case none => simp
  case some p => simp [isErr_some]

theorem isOk_tag (v : JSVal) (h : isOk v none = true) : tagOf v = some (.vstr "ok") := by
  cases v <;> simp [isOk] at h
  case vobj fields =>
    cases h1 : getField "type" fields
    case none => simp [h1] at h
    case some t =>
      simp [h1, jsEq_vstr_iff] at h
      simp [tagOf, h1, h.1]

theorem isErr_tag (v : JSVal) (h : isErr v none = true) : tagOf v = some (.vstr "err") := by
  cases v <;> simp [isErr] at h
  case vobj fields =>
    cases h1 : getField "type" fields
    case none => simp [h1] at h
    case some t =>
      simp [h1, jsEq_vstr_iff] at h
      simp [tagOf, h1, h.1]

theorem isLoading_tag (v : JSVal) (h : isLoading v = true) : tagOf v = some (.vstr "loading") := by
  cases v <;> simp [isLoading] at h
  case vobj fields =>
    cases h1 : getField "type" fields
    case none => simp [h1] at h
    case some t =>
      simp [h1, jsEq_vstr_iff] at h
      simp [tagOf, h1, h]

theorem isNotAsked_tag (v : JSVal) (h : isNotAsked v = true) :
    tagOf v = some (.vstr "not-asked") := by
  cases v <;> simp [isNotAsked] at h
  case vobj fields =>
    cases h1 : getField "type" fields
    case none => simp [h1] at h
    case some t =>
      simp [h1, jsEq_vstr_iff] at h
      simp [tagOf, h1, h]

end ResultLib

namespace ResultLib

theorem some_vstr_ne (a b : String) (h : a ≠ b) :
    some (JSVal.vstr a) ≠ some (JSVal.vstr b) := by
  intro hx
  injection hx with hx
  injection hx with hx
  exact absurd hx h

theorem isOk_false_of_tag (v : JSVal) (h : tagOf v ≠ some (.vstr "ok")) :
    isOk v none = false := by
  cases hok : isOk v none
  · rfl
  · exact absurd (isOk_tag v hok) h

theorem isErr_false_of_tag (v : JSVal) (h : tagOf v ≠ some (.vstr "err")) :
    isErr v none = false := by
  cases herr : isErr v none
  · rfl
  · exact absurd (isErr_tag v herr) h

theorem isLoading_false_of_tag (v : JSVal) (h : tagOf v ≠ some (.vstr "loading")) :
    isLoading v = false := by
  cases hl : isLoading v
  · rfl
  · exact absurd (isLoading_tag v hl) h

theorem isNotAsked_false_of_tag (v : JSVal) (h : tagOf v ≠ some (.vstr "not-asked")) :
    isNotAsked v = false := by
  cases hn : isNotAsked v
  · rfl
  · exact absurd (isNotAsked_tag v hn) h

theorem isResult_eq (v : JSVal) (vv ev : Option (JSVal → Bool)) :
    isResult v vv ev = (isOk v vv || isErr v ev) := by
  cases hok : isOk v none <;> cases herr : isErr v none
  · cases vv <;> cases ev <;> simp [isResult, hok, herr, isOk_some, isErr_some]
  · cases vv <;> cases ev <;> simp [isResult, hok, herr, isOk_some, isErr_some]
  · cases vv <;> cases ev <;> simp [isResult, hok, herr, isOk_some, isErr_some]
  · have h1 := isOk_tag v hok
    have h2 := isErr_tag v herr
    rw [h1] at h2
    exact absurd h2 (some_vstr_ne "ok" "err" (by decide))

theorem isRemoteResult_eq (v : JSVal) (vv ev : Option (JSVal → Bool)) :
    isRemoteResult v vv ev = (isLoading v || isNotAsked v || isResult v vv ev) := by
  cases h1 : isLoading v <;> cases h2 : isNotAsked v <;> simp [isRemoteResult, h1, h2]

theorem fieldOf_type_eq (v t : JSVal) (h : tagOf v = some t) : fieldOf v "type" = t := by
  cases v <;> simp [tagOf] at h
  case vobj fields => simp [fieldOf, h]

theorem isOk_Ok (v : JSVal) : isOk (Ok v) none = true := rfl

theorem fieldOf_Ok_value (v : JSVal) : fieldOf (Ok v) "value" = v := rfl

theorem isErr_Err (e : JSVal) : isErr (Err e) none = true := rfl

theorem fieldOf_Err_error (e : JSVal) : fieldOf (Err e) "error" = e := rfl

theorem isOk_Err (e : JSVal) : isOk (Err e) none = false := rfl

theorem isErr_Ok (v : JSVal) : isErr (Ok v) none = false := rfl

theorem isOk_Loading : isOk Loading none = false := rfl

theorem isOk_NotAsked : isOk NotAsked none = false := rfl

theorem isErr_Loading : isErr Loading none = false := rfl

theorem isErr_NotAsked : isErr NotAsked none = false := rfl

theorem isLoading_Loading : isLoading Loading = true := rfl

theorem isNotAsked_NotAsked : isNotAsked NotAsked = true := rfl

end ResultLib

namespace ResultLib

theorem not_isOk_and_isErr (v : JSVal) (vv ev : Option (JSVal → Bool)) :
    ¬(isOk v vv = true ∧ isErr v ev = true) := by
  rintro ⟨h1, h2⟩
  rw [isOk_any] at h1
  rw [isErr_any] at h2
  have h1a : isOk v none = true := (Bool.and_eq_true _ _ ▸ h1).1
  have h2a : isErr v none = true := (Bool.and_eq_true _ _ ▸ h2).1
  have t1 := isOk_tag v h1a
  have t2 := isErr_tag v h2a
  rw [t1] at t2
  exact absurd t2 (some_vstr_ne "ok" "err" (by decide))

theorem isErr_false_of_isOk (v : JSVal) (ev : Option (JSVal → Bool))
    (h : isOk v none = true) : isErr v ev = false := by
  cases herr : isErr v ev
  · rfl
  · exact absurd ⟨h, herr⟩ (not_isOk_and_isErr v none ev)

theorem isOk_false_of_isErr (v : JSVal) (vv : Option (JSVal → Bool))
    (h : isErr v none = true) : isOk v vv = false := by
  cases hok : isOk v vv
  · rfl
  · exact absurd ⟨hok, h⟩ (not_isOk_and_isErr v vv none)

theorem isRemoteResult_of_isOk (v : JSVal) (h : isOk v none = true) :
    isRemoteResult v none none = true := by
  rw [isRemoteResult_eq, isResult_eq]
  simp [h]

theorem isRemoteResult_of_isErr (v : JSVal) (h : isErr v none = true) :
    isRemoteResult v none none = true := by
  rw [isRemoteResult_eq, isResult_eq]
  simp [h]

theorem isRemoteResult_of_isLoading (v : JSVal) (h : isLoading v = true) :
    isRemoteResult v none none = true := by
  rw [isRemoteResult_eq]
  simp [h]

theorem isRemoteResult_of_isNotAsked (v : JSVal) (h : isNotAsked v = true) :
    isRemoteResult v none none = true := by
  rw [isRemoteResult_eq]
  simp [h]

theorem isRemoteResult_tag (v : JSVal) (h : isRemoteResult v none none = true) :
    ∃ s, tagOf v = some (.vstr s) ∧
      (s = "ok" ∨ s = "err" ∨ s = "loading" ∨ s = "not-asked") := by
  cases h1 : isLoading v
  case true => exact ⟨"loading", isLoading_tag v h1, Or.inr (Or.inr (Or.inl rfl))⟩
  case false =>
  cases h2 : isNotAsked v
  case true => exact ⟨"not-asked", isNotAsked_tag v h2, Or.inr (Or.inr (Or.inr rfl))⟩
  case false =>
  cases h3 : isOk v none
  case true => exact ⟨"ok", isOk_tag v h3, Or.inl rfl⟩
  case false =>
  cases h4 : isErr v none
  case true => exact ⟨"err", isErr_tag v h4, Or.inr (Or.inl rfl)⟩
  case false =>
  rw [isRemoteResult_eq, isResult_eq, h1, h2, h3, h4] at h
  simp at h

theorem jsEq_vstr_vstr (s1 s2 : String) : jsEq (.vstr s1) (.vstr s2) = (s1 == s2) := rfl

end ResultLib

namespace ResultLib

/-- C4: `flatMapOk` satisfies the monad laws: left identity `flatMapOk(Ok(v), f) = f(v)`;
right identity `flatMapOk(r, Ok) = r` for every `Result` value `r`; and associativity
`flatMapOk(flatMapOk(r, f), g) = flatMapOk(r, x => flatMapOk(f(x), g))`. -/
theorem flatMapOk_monad_laws :
    (∀ v f, flatMapOk (Ok v) f = f v)
  ∧ (∀ r, IsResultValue r → flatMapOk r Ok = r)
  ∧ (∀ r f g, flatMapOk (flatMapOk r f) g = flatMapOk r (fun x => flatMapOk (f x) g)) := by
  refine ⟨fun v f => rfl, ?_, ?_⟩
  · intro r hr
    rcases hr with ⟨v, rfl⟩ | ⟨e, rfl⟩
    · rfl
    · rfl
  · intro r f g
    cases h : isOk r none
    · simp [flatMapOk, h]
    · simp [flatMapOk, h]

/-- Witness for C4: the hypothesis-bearing right-identity law applied to the
concrete values `Ok(1)` and `Err(2)`. -/
theorem flatMapOk_monad_laws_witness :
    flatMapOk (Ok (.vnum 1)) Ok = Ok (.vnum 1)
  ∧ flatMapOk (Err (.vnum 2)) Ok = Err (.vnum 2) :=
  ⟨flatMapOk_monad_laws.2.1 (Ok (.vnum 1)) (Or.inl ⟨.vnum 1, rfl⟩),
   flatMapOk_monad_laws.2.1 (Err (.vnum 2)) (Or.inr ⟨.vnum 2, rfl⟩)⟩

/-- C5: `mapOk` satisfies the functor laws (composition for every input; identity for
every value of the four-variant data model) and is the identity, without using its
mapper, on every value recognised as `Err`, `Loading`, or `NotAsked`. -/
theorem mapOk_functor_laws :
    (∀ r f g, mapOk (mapOk r f) g = mapOk r (fun x => g (f x)))
  ∧ (∀ r, IsRemoteValue r → mapOk r (fun x => x) = r)
  ∧ (∀ r f, (isErr r none = true ∨ isLoading r = true ∨ isNotAsked r = true) →
      mapOk r f = r) := by
  refine ⟨?_, ?_, ?_⟩
  · intro r f g
    cases h : isOk r none
    · simp [mapOk, h]
    · simp [mapOk, h, isOk_Ok, fieldOf_Ok_value]
  · intro r hr
    rcases hr with (⟨v, rfl⟩ | ⟨e, rfl⟩) | rfl | rfl
    · rfl
    · rfl
    · rfl
    · rfl
  · intro r f hr
    have hok : isOk r none = false := by
      rcases hr with h | h | h
      · exact isOk_false_of_isErr r none h
      · exact isOk_false_of_tag r
          (isLoading_tag r h ▸ some_vstr_ne "loading" "ok" (by decide))
      · exact isOk_false_of_tag r
          (isNotAsked_tag r h ▸ some_vstr_ne "not-asked" "ok" (by decide))
    simp [mapOk, hok]

end ResultLib

namespace ResultLib

/-- Witness for C5: the identity law at `Err(3)` and the pass-through law at
`Loading`, with their hypotheses discharged concretely. -/
theorem mapOk_functor_laws_witness :
    mapOk (Err (.vnum 3)) (fun x => x) = Err (.vnum 3)
  ∧ mapOk Loading (fun _ => .vnum 9) = Loading :=
  ⟨mapOk_functor_laws.2.1 (Err (.vnum 3)) (Or.inl (Or.inr ⟨.vnum 3, rfl⟩)),
   mapOk_functor_laws.2.2 Loading (fun _ => .vnum 9) (Or.inr (Or.inl rfl))⟩

/-- C9: the four transformation combinators are total over arbitrary inputs: on any
value that fails the guard of their own channel (null, primitives, malformed records,
other variants) they return the input itself unchanged and the result does not depend
on the mapper, which is never invoked. -/
theorem transforms_total_outside_channel :
    (∀ v f, isOk v none = false → mapOk v f = v ∧ flatMapOk v f = v)
  ∧ (∀ v f, isErr v none = false → mapErr v f = v ∧ flatMapErr v f = v) := by
  constructor
  · intro v f h
    constructor
    · simp [mapOk, h]
    · simp [flatMapOk, h]
  · intro v f h
    constructor
    · simp [mapErr, h]
    · simp [flatMapErr, h]

/-- Witness for C9: the pass-through behaviour on the non-outcome value `null` and
on a record missing its payload field. -/
theorem transforms_total_outside_channel_witness :
    (mapOk .vnull (fun _ => .vnum 1) = .vnull ∧ flatMapOk .vnull (fun _ => .vnum 1) = .vnull)
  ∧ (mapErr (.vobj [("type", .vstr "err")]) (fun _ => .vnum 1) = .vobj [("type", .vstr "err")]
    ∧ flatMapErr (.vobj [("type", .vstr "err")]) (fun _ => .vnum 1)
        = .vobj [("type", .vstr "err")]) :=
  ⟨transforms_total_outside_channel.1 .vnull (fun _ => .vnum 1) rfl,
   transforms_total_outside_channel.2 (.vobj [("type", .vstr "err")]) (fun _ => .vnum 1) rfl⟩

/-- C10: `getOrElse` and `unwrapOr` agree on every input and default; both return the
payload for an `Ok` value and the default for every other input, including malformed
values, and are total. -/
theorem getOrElse_eq_unwrapOr :
    (∀ r d, getOrElse r d = unwrapOr r d)
  ∧ (∀ v d, getOrElse (Ok v) d = v)
  ∧ (∀ r d, isOk r none = true → getOrElse r d = fieldOf r "value")
  ∧ (∀ r d, isOk r none = false → getOrElse r d = d) := by
  refine ⟨fun r d => rfl, fun v d => rfl, ?_, ?_⟩
  · intro r d h
    simp [getOrElse, unwrapOr, h]
  · intro r d h
    simp [getOrElse, unwrapOr, h]

/-- Witness for C10: the payload case at `Ok(5)` and the default case at `Err(7)`
and at the malformed value `42`. -/
theorem getOrElse_eq_unwrapOr_witness :
    getOrElse (Ok (.vnum 5)) (.vnum 3) = fieldOf (Ok (.vnum 5)) "value"
  ∧ getOrElse (Err (.vnum 7)) (.vnum 3) = .vnum 3
  ∧ getOrElse (.vnum 42) (.vnum 3) = .vnum 3 :=
  ⟨getOrElse_eq_unwrapOr.2.2.1 (Ok (.vnum 5)) (.vnum 3) rfl,
   getOrElse_eq_unwrapOr.2.2.2 (Err (.vnum 7)) (.vnum 3) rfl,
   getOrElse_eq_unwrapOr.2.2.2 (.vnum 42) (.vnum 3) rfl⟩

end ResultLib

namespace ResultLib

/-- C6: on every `Loading` or `NotAsked` input, `fold`, `bimap`, and `toPromise` raise
synchronously (modelled `Except.error`, never an `Err`-carrying `Except.ok`), and
`unwrap` raises on every non-`Ok` input. -/
theorem misuse_throws_synchronously :
    (∀ r f g, (isLoading r = true ∨ isNotAsked r = true) →
        fold r f g = Except.error "Invalid result type"
      ∧ bimap r f g = Except.error "Invalid result type"
      ∧ toPromise r = Except.error "Cannot convert Loading or NotAsked to Promise")
  ∧ (∀ r, isOk r none = false →
      unwrap r = Except.error "Tried to unwrap a non-ok result") := by
  constructor
  · intro r f g hr
    have hok : isOk r none = false := by
      rcases hr with h | h
      · exact isOk_false_of_tag r
          (isLoading_tag r h ▸ some_vstr_ne "loading" "ok" (by decide))
      · exact isOk_false_of_tag r
          (isNotAsked_tag r h ▸ some_vstr_ne "not-asked" "ok" (by decide))
    have herr : isErr r none = false := by
      rcases hr with h | h
      · exact isErr_false_of_tag r
          (isLoading_tag r h ▸ some_vstr_ne "loading" "err" (by decide))
      · exact isErr_false_of_tag r
          (isNotAsked_tag r h ▸ some_vstr_ne "not-asked" "err" (by decide))
    exact ⟨by simp [fold, hok, herr], by simp [bimap, hok, herr],
      by simp [toPromise, hok, herr]⟩
  · intro r h
    simp [unwrap, h]

/-- Witness for C6: the structural-misuse faults observed at the concrete inputs
`Loading` and `NotAsked`, and `unwrap` at `Err(1)`. -/
theorem misuse_throws_synchronously_witness :
    (fold Loading (fun x => x) (fun x => x) = Except.error "Invalid result type"
    ∧ bimap Loading (fun x => x) (fun x => x) = Except.error "Invalid result type"
    ∧ toPromise Loading = Except.error "Cannot convert Loading or NotAsked to Promise")
  ∧ (fold NotAsked (fun x => x) (fun x => x) = Except.error "Invalid result type")
  ∧ unwrap (Err (.vnum 1)) = Except.error "Tried to unwrap a non-ok result" :=
  ⟨misuse_throws_synchronously.1 Loading (fun x => x) (fun x => x) (Or.inl rfl),
   (misuse_throws_synchronously.1 NotAsked (fun x => x) (fun x => x) (Or.inr rfl)).1,
   misuse_throws_synchronously.2 (Err (.vnum 1)) rfl⟩

/-- C7: `fromNullable` treats `0`, the empty string, and `false` as present and fails
exactly on `null`/`undefined`; `fromFalsy` fails on every falsy value (including `0`,
the empty string, `false`, `null`, `undefined`, and `NaN`) and succeeds on every
truthy value. -/
theorem fromNullable_fromFalsy_boundary :
    (∀ e, fromNullable (.vnum 0) e = Ok (.vnum 0)
      ∧ fromNullable (.vstr "") e = Ok (.vstr "")
      ∧ fromNullable (.vbool false) e = Ok (.vbool false))
  ∧ (∀ v e, fromNullable v e = Err e ↔ (v = .vnull ∨ v = .vundefined))
  ∧ (∀ e, fromFalsy (.vnum 0) e = Err e ∧ fromFalsy (.vstr "") e = Err e
      ∧ fromFalsy (.vbool false) e = Err e ∧ fromFalsy .vnull e = Err e
      ∧ fromFalsy .vundefined e = Err e ∧ fromFalsy .vnan e = Err e)
  ∧ (∀ v e, truthy v = false → fromFalsy v e = Err e)
  ∧ (∀ v e, truthy v = true → fromFalsy v e = Ok v) := by
  refine ⟨fun e => ⟨rfl, rfl, rfl⟩, ?_, fun e => ⟨rfl, rfl, rfl, rfl, rfl, rfl⟩, ?_, ?_⟩
  · intro v e
    cases v <;> simp [fromNullable, isNullish, Ok, Err]
  · intro v e h
    simp [fromFalsy, h]
  · intro v e h
    simp [fromFalsy, h]

/-- Witness for C7: the falsy and truthy branches of `fromFalsy` at `0` and `1`. -/
theorem fromNullable_fromFalsy_boundary_witness :
    fromFalsy (.vnum 0) (.vstr "e") = Err (.vstr "e")
  ∧ fromFalsy (.vnum 1) (.vstr "e") = Ok (.vnum 1) :=
  ⟨fromNullable_fromFalsy_boundary.2.2.2.1 (.vnum 0) (.vstr "e") rfl,
   fromNullable_fromFalsy_boundary.2.2.2.2 (.vnum 1) (.vstr "e") rfl⟩

/-- C8: `fromNullable` and `fromNullish` are behaviourally identical; both return
`Err(e)` exactly when the value is `null` or `undefined`, and `Ok(v)` otherwise. -/
theorem fromNullable_eq_fromNullish :
    (∀ v e, fromNullable v e = fromNullish v e)
  ∧ (∀ v e, fromNullish v e = Err e ↔ (v = .vnull ∨ v = .vundefined))
  ∧ (∀ v e, v ≠ .vnull → v ≠ .vundefined → fromNullish v e = Ok v) := by
  refine ⟨?_, ?_, ?_⟩
  · intro v e
    cases v <;> rfl
  · intro v e
    cases v <;> simp [fromNullish, isNullish, Ok, Err]
  · intro v e h1 h2
    cases v <;> simp_all [fromNullish, isNullish]

/-- Witness for C8: the `Ok` branch of `fromNullish` at the value `0`, whose
non-nullish hypotheses are discharged concretely. -/
theorem fromNullable_eq_fromNullish_witness :
    fromNullish (.vnum 0) (.vstr "e") = Ok (.vnum 0) :=
  fromNullable_eq_fromNullish.2.2 (.vnum 0) (.vstr "e")
    (fun h => JSVal.noConfusion h) (fun h => JSVal.noConfusion h)

end ResultLib

namespace ResultLib

/-- C2: the variant guards are total and defensive: they return false on `null`, on
every non-object value, and on records missing the expected tag or payload field;
and a guard with a validator is true exactly when the plain guard matches and the
validator accepts the payload, so a tag-matching record whose payload fails the
validator yields false. -/
theorem guards_defensive_and_validated :
    (∀ p q, isOk .vnull p = false ∧ isErr .vnull q = false ∧ isLoading .vnull = false
      ∧ isNotAsked .vnull = false)
  ∧ (∀ v p q, (∀ fields, v ≠ .vobj fields) →
      isOk v p = false ∧ isErr v q = false ∧ isLoading v = false ∧ isNotAsked v = false)
  ∧ (∀ fields p q, getField "type" fields = none →
      isOk (.vobj fields) p = false ∧ isErr (.vobj fields) q = false
      ∧ isLoading (.vobj fields) = false ∧ isNotAsked (.vobj fields) = false)
  ∧ (∀ fields p, getField "value" fields = none → isOk (.vobj fields) p = false)
  ∧ (∀ fields q, getField "error" fields = none → isErr (.vobj fields) q = false)
  ∧ (∀ v p, isOk v (some p) = (isOk v none && p (fieldOf v "value")))
  ∧ (∀ v q, isErr v (some q) = (isErr v none && q (fieldOf v "error"))) := by
  refine ⟨fun p q => ⟨rfl, rfl, rfl, rfl⟩, ?_, ?_, ?_, ?_, isOk_some, isErr_some⟩
  · intro v p q h
    cases v
    case vobj fields => exact absurd rfl (h fields)
    all_goals exact ⟨rfl, rfl, rfl, rfl⟩
  · intro fields p q h
    refine ⟨?_, ?_, ?_, ?_⟩ <;> simp [isOk, isErr, isLoading, isNotAsked, h]
  · intro fields p h
    simp [isOk, h]
  · intro fields q h
    simp [isErr, h]

/-- Witness for C2: a non-object input, a record with no tag, tag-only records with
missing payloads, and a tag-matching record rejected by its validator. -/
theorem guards_defensive_and_validated_witness :
    (isOk (.vnum 7) none = false ∧ isErr (.vnum 7) none = false
      ∧ isLoading (.vnum 7) = false ∧ isNotAsked (.vnum 7) = false)
  ∧ (isOk (.vobj [("x", .vnull)]) none = false ∧ isErr (.vobj [("x", .vnull)]) none = false
      ∧ isLoading (.vobj [("x", .vnull)]) = false ∧ isNotAsked (.vobj [("x", .vnull)]) = false)
  ∧ isOk (.vobj [("type", .vstr "ok")]) none = false
  ∧ isErr (.vobj [("type", .vstr "err")]) none = false
  ∧ isOk (Ok (.vstr "x")) (some (fun v => structEq v (.vnum 0)))
      = (isOk (Ok (.vstr "x")) none && (fun v => structEq v (.vnum 0)) (fieldOf (Ok (.vstr "x")) "value")) :=
  ⟨guards_defensive_and_validated.2.1 (.vnum 7) none none
      (fun _fields h => JSVal.noConfusion h),
   guards_defensive_and_validated.2.2.1 [("x", .vnull)] none none rfl,
   guards_defensive_and_validated.2.2.2.1 [("type", .vstr "ok")] none rfl,
   guards_defensive_and_validated.2.2.2.2.1 [("type", .vstr "err")] none rfl,
   guards_defensive_and_validated.2.2.2.2.2.1 (Ok (.vstr "x")) (fun v => structEq v (.vnum 0))⟩

end ResultLib

namespace ResultLib

/-- C3: `isResult(v, vv, ev)` is true exactly when exactly one of the `isOk`/`isErr`
guards succeeds with the matching branch's validator (the two can never succeed
together), and its outcome does not depend on the non-matching branch's validator,
which is never evaluated; `isRemoteResult` additionally accepts every `Loading` or
`NotAsked` value unconditionally and otherwise agrees with `isResult`. -/
theorem isResult_isRemoteResult_spec :
    (∀ v vv ev, isResult v vv ev = (isOk v vv || isErr v ev))
  ∧ (∀ v vv ev, ¬(isOk v vv = true ∧ isErr v ev = true))
  ∧ (∀ v vv ev, isResult v vv ev = true ↔
      ((isOk v vv = true ∧ isErr v ev = false) ∨ (isOk v vv = false ∧ isErr v ev = true)))
  ∧ (∀ v vv ev1 ev2, isOk v none = true → isResult v vv ev1 = isResult v vv ev2)
  ∧ (∀ v vv1 vv2 ev, isErr v none = true → isResult v vv1 ev = isResult v vv2 ev)
  ∧ (∀ v vv ev, (isLoading v = true ∨ isNotAsked v = true) → isRemoteResult v vv ev = true)
  ∧ (∀ v vv ev, isLoading v = false → isNotAsked v = false →
      isRemoteResult v vv ev = isResult v vv ev) := by
  refine ⟨isResult_eq, not_isOk_and_isErr, ?_, ?_, ?_, ?_, ?_⟩
  · intro v vv ev
    cases ha : isOk v vv <;> cases hb : isErr v ev <;> simp [isResult_eq, ha, hb]
    exact absurd ⟨ha, hb⟩ (not_isOk_and_isErr v vv ev)
  · intro v vv ev1 ev2 h
    rw [isResult_eq, isResult_eq, isErr_false_of_isOk v ev1 h, isErr_false_of_isOk v ev2 h]
  · intro v vv1 vv2 ev h
    rw [isResult_eq, isResult_eq, isOk_false_of_isErr v vv1 h, isOk_false_of_isErr v vv2 h]
  · intro v vv ev h
    rcases h with h | h <;> simp [isRemoteResult, h]
  · intro v vv ev h1 h2
    simp [isRemoteResult, h1, h2]

/-- Witness for C3: validator independence of the non-matching branch at `Ok(1)` and
`Err(1)`, and unconditional acceptance of `Loading` by `isRemoteResult`, with all
hypotheses discharged on concrete values. -/
theorem isResult_isRemoteResult_spec_witness :
    isResult (Ok (.vnum 1)) none (some (fun _ => false))
      = isResult (Ok (.vnum 1)) none (some (fun _ => true))
  ∧ isResult (Err (.vnum 1)) (some (fun _ => false)) none
      = isResult (Err (.vnum 1)) (some (fun _ => true)) none
  ∧ isRemoteResult Loading none none = true
  ∧ isRemoteResult (Ok (.vnum 1)) none none = isResult (Ok (.vnum 1)) none none :=
  ⟨isResult_isRemoteResult_spec.2.2.2.1 (Ok (.vnum 1)) none
      (some (fun _ => false)) (some (fun _ => true)) rfl,
   isResult_isRemoteResult_spec.2.2.2.2.1 (Err (.vnum 1))
      (some (fun _ => false)) (some (fun _ => true)) none rfl,
   isResult_isRemoteResult_spec.2.2.2.2.2.1 Loading none none (Or.inl rfl),
   isResult_isRemoteResult_spec.2.2.2.2.2.2 (Ok (.vnum 1)) none none rfl rfl⟩

end ResultLib

namespace ResultLib

/-- C1: `equals(a, b, payloadEq?)` is total, returns false when either side fails the
`isRemoteResult` guard, returns false when the two tags differ, compares the payloads
of matching `Ok`/`Ok` and `Err`/`Err` pairs with `payloadEq` when supplied and with
strict equality (`jsEq`) otherwise, and returns true for matching `Loading`/`Loading`
and `NotAsked`/`NotAsked` pairs. -/
theorem equals_defensive_structural :
    (∀ a b p, (isRemoteResult a none none = false ∨ isRemoteResult b none none = false) →
        equals a b p = false)
  ∧ (∀ a b p, isRemoteResult a none none = true → isRemoteResult b none none = true →
        tagOf a ≠ tagOf b → equals a b p = false)
  ∧ (∀ a b p, isOk a none = true → isOk b none = true →
        equals a b (some p) = p (fieldOf a "value") (fieldOf b "value"))
  ∧ (∀ a b, isOk a none = true → isOk b none = true →
        equals a b none = jsEq (fieldOf a "value") (fieldOf b "value"))
  ∧ (∀ a b p, isErr a none = true → isErr b none = true →
        equals a b (some p) = p (fieldOf a "error") (fieldOf b "error"))
  ∧ (∀ a b, isErr a none = true → isErr b none = true →
        equals a b none = jsEq (fieldOf a "error") (fieldOf b "error"))
  ∧ (∀ a b p, isLoading a = true → isLoading b = true → equals a b p = true)
  ∧ (∀ a b p, isNotAsked a = true → isNotAsked b = true → equals a b p = true) := by
  refine ⟨?_, ?_, ?_, ?_, ?_, ?_, ?_, ?_⟩
  · intro a b p h
    rcases h with h | h <;> simp [equals, h]
  · intro a b p ha hb hne
    obtain ⟨s1, hs1, _⟩ := isRemoteResult_tag a ha
    obtain ⟨s2, hs2, _⟩ := isRemoteResult_tag b hb
    have hss : s1 ≠ s2 := by
      intro hcontra
      subst hcontra
      exact hne (hs1.trans hs2.symm)
    have hjs : jsEq (fieldOf a "type") (fieldOf b "type") = false := by
      rw [fieldOf_type_eq a _ hs1, fieldOf_type_eq b _ hs2, jsEq_vstr_vstr]
      exact beq_eq_false_iff_ne.mpr hss
    simp [equals, ha, hb, hjs]
  · intro a b p ha hb
    have hta := fieldOf_type_eq a _ (isOk_tag a ha)
    have htb := fieldOf_type_eq b _ (isOk_tag b hb)
    simp [equals, isRemoteResult_of_isOk a ha, isRemoteResult_of_isOk b hb,
      hta, htb, jsEq_vstr_vstr, ha, hb]
  · intro a b ha hb
    have hta := fieldOf_type_eq a _ (isOk_tag a ha)
    have htb := fieldOf_type_eq b _ (isOk_tag b hb)
    simp [equals, isRemoteResult_of_isOk a ha, isRemoteResult_of_isOk b hb,
      hta, htb, jsEq_vstr_vstr, ha, hb]
  · intro a b p ha hb
    have hta := fieldOf_type_eq a _ (isErr_tag a ha)
    have htb := fieldOf_type_eq b _ (isErr_tag b hb)
    have hoa : isOk a none = false := isOk_false_of_isErr a none ha
    simp [equals, isRemoteResult_of_isErr a ha, isRemoteResult_of_isErr b hb,
      hta, htb, jsEq_vstr_vstr, ha, hb, hoa]
  · intro a b ha hb
    have hta := fieldOf_type_eq a _ (isErr_tag a ha)
    have htb := fieldOf_type_eq b _ (isErr_tag b hb)
    have hoa : isOk a none = false := isOk_false_of_isErr a none ha
    simp [equals, isRemoteResult_of_isErr a ha, isRemoteResult_of_isErr b hb,
      hta, htb, jsEq_vstr_vstr, ha, hb, hoa]
  · intro a b p ha hb
    have hta := fieldOf_type_eq a _ (isLoading_tag a ha)
    have htb := fieldOf_type_eq b _ (isLoading_tag b hb)
    have hoa : isOk a none = false := isOk_false_of_tag a
      (isLoading_tag a ha ▸ some_vstr_ne "loading" "ok" (by decide))
    have hea : isErr a none = false := isErr_false_of_tag a
      (isLoading_tag a ha ▸ some_vstr_ne "loading" "err" (by decide))
    simp [equals, isRemoteResult, ha, hb, hta, htb, jsEq_vstr_vstr, hoa, hea]
  · intro a b p ha hb
    have hta := fieldOf_type_eq a _ (isNotAsked_tag a ha)
    have htb := fieldOf_type_eq b _ (isNotAsked_tag b hb)
    have hoa : isOk a none = false := isOk_false_of_tag a
      (isNotAsked_tag a ha ▸ some_vstr_ne "not-asked" "ok" (by decide))
    have hea : isErr a none = false := isErr_false_of_tag a
      (isNotAsked_tag a ha ▸ some_vstr_ne "not-asked" "err" (by decide))
    simp [equals, isRemoteResult, ha, hb, hta, htb, jsEq_vstr_vstr, hoa, hea]

/-- Witness for C1: each behaviour at concrete inputs: a non-outcome left operand,
differing tags, matching `Ok` pairs under default and custom comparison, a matching
`Err` pair, and `Loading`/`NotAsked` pairs. -/
theorem equals_defensive_structural_witness :
    equals (.vnum 0) (Ok (.vnum 1)) none = false
  ∧ equals (Ok (.vnum 1)) (Err (.vnum 1)) none = false
  ∧ equals (Ok (.vnum 2)) (Ok (.vnum 2)) none = jsEq (.vnum 2) (.vnum 2)
  ∧ equals (Ok (.vnum 2)) (Ok (.vnum 3)) (some (fun _ _ => true)) = true
  ∧ equals (Err (.vstr "x")) (Err (.vstr "x")) none = jsEq (.vstr "x") (.vstr "x")
  ∧ equals Loading Loading none = true
  ∧ equals NotAsked NotAsked (some (fun _ _ => false)) = true :=
  ⟨equals_defensive_structural.1 (.vnum 0) (Ok (.vnum 1)) none (Or.inl rfl),
   equals_defensive_structural.2.1 (Ok (.vnum 1)) (Err (.vnum 1)) none rfl rfl
     (some_vstr_ne "ok" "err" (by decide)),
   equals_defensive_structural.2.2.2.1 (Ok (.vnum 2)) (Ok (.vnum 2)) rfl rfl,
   equals_defensive_structural.2.2.1 (Ok (.vnum 2)) (Ok (.vnum 3)) (fun _ _ => true) rfl rfl,
   equals_defensive_structural.2.2.2.2.2.1 (Err (.vstr "x")) (Err (.vstr "x")) rfl rfl,
   equals_defensive_structural.2.2.2.2.2.2.1 Loading Loading none rfl rfl,
   equals_defensive_structural.2.2.2.2.2.2.2 NotAsked NotAsked (some (fun _ _ => false))
     rfl rfl⟩

end ResultLib
